import Mathlib

/-!
Verification model of the web-companion execution sandbox pipeline:
the import rewriter (`ImportPathResolver`), the package installer
(`PackageManager`), the execution engine (`PyodideExecutor.execute`)
and the test-result parser (`TestRunner`).

The JavaScript source manipulates strings through a small set of regex
shapes: literal characters, character classes, `\s+`, `\s*`, a trailing
`\b` word boundary, and an end anchor `$`.  We embed exactly that
fragment, including the ECMAScript `lastIndex` protocol of `RegExp.test`
on `g`-flagged regexes, which the resolver relies on.
-/

namespace WebCompanion

/-- Tokens of the regex fragment used by the source: literal characters,
character classes, `\s+`, `\s*`, a word-boundary test `\b` (only used at
the end of patterns, after a word character) and the `$` end anchor. -/
inductive RTok where
  | lit (c : Char)
  | cls (cs : List Char)
  | wsPlus
  | wsStar
  | wordB
  | endA
deriving DecidableEq, Repr

/-- ECMAScript `\s` for the characters that can occur here. -/
def isJsSpace (c : Char) : Bool :=
  c = ' ' || c = '\t' || c = '\n' || c = '\r' || c = Char.ofNat 11 || c = Char.ofNat 12

/-- ECMAScript `\w` (`[A-Za-z0-9_]`), deciding `\b`. -/
def isWordChar (c : Char) : Bool :=
  c.isAlpha || c.isDigit || c = '_'

/-- Literal pattern for a plain string. -/
def strToks (s : String) : List RTok := s.data.map RTok.lit

/-- Greedily consume a run of whitespace, returning its length and the rest. -/
def spanWs : List Char → Nat × List Char
  | [] => (0, [])
  | c :: s =>
    if isJsSpace c then
      let (n, r) := spanWs s
      (n + 1, r)
    else (0, c :: s)

/-- Match a pattern at the head of `s`; return the remaining suffix on
success.  In every pattern of the source, `\s+`/`\s*` is followed by a
non-whitespace literal or the end anchor, so the greedy, non-backtracking
match below coincides with ECMAScript semantics on these patterns. -/
def matchToks : List RTok → List Char → Option (List Char)
  | [], s => some s
  | .lit c :: ts, x :: s => if x = c then matchToks ts s else none
  | .lit _ :: _, [] => none
  | .cls cs :: ts, x :: s => if cs.contains x then matchToks ts s else none
  | .cls _ :: _, [] => none
  | .wsPlus :: ts, s =>
    let (n, r) := spanWs s
    if n = 0 then none else matchToks ts r
  | .wsStar :: ts, s => matchToks ts (spanWs s).2
  | .wordB :: ts, s =>
    match s with
    | [] => matchToks ts []
    | x :: _ => if isWordChar x then none else matchToks ts s
  | .endA :: ts, s =>
    match s with
    | [] => matchToks ts []
    | _ :: _ => none

/-- Find the first match of `toks` starting at a position `≥ pos` in the
suffix `s` (whose first character sits at absolute position `pos`);
return the start position and the end position of the match. -/
def findAux (toks : List RTok) : List Char → Nat → Option (Nat × Nat)
  | s, pos =>
    match matchToks toks s with
    | some rest => some (pos, pos + (s.length - rest.length))
    | none =>
      match s with
      | [] => none
      | _ :: s' => findAux toks s' (pos + 1)

/-- First match of `toks` in `s` at a position `≥ i` (ECMAScript search
from `lastIndex = i`). -/
def findFrom (toks : List RTok) (s : List Char) (i : Nat) : Option (Nat × Nat) :=
  findAux toks (s.drop i) i

/-- `RegExp.prototype.test` on a `g`-flagged regex whose `lastIndex` is
`lastIdx`: returns whether a match was found together with the new
`lastIndex` (end of the match on success, `0` on failure). -/
def jsTest (toks : List RTok) (s : List Char) (lastIdx : Nat) : Bool × Nat :=
  match findFrom toks s lastIdx with
  | some (_, e) => (true, e)
  | none => (false, 0)

/-- `String.prototype.replace` with a `g`-flagged regex: replace every
leftmost non-overlapping match.  (After `replace`, the regex's
`lastIndex` is `0`.)  Structural recursion on a fuel bound so that the
function reduces definitionally; every step strictly shortens the
remaining text, so `fuel = length + 1` never runs out. -/
def replaceAllGo (toks : List RTok) (rep : List Char) : Nat → List Char → List Char
  | 0, s => s
  | fuel + 1, s =>
    match matchToks toks s with
    | some rest =>
      if rest.length < s.length then
        rep ++ replaceAllGo toks rep fuel rest
      else
        match s with
        | [] => rep
        | c :: s' => rep ++ (c :: replaceAllGo toks rep fuel s')
    | none =>
      match s with
      | [] => []
      | c :: s' => c :: replaceAllGo toks rep fuel s'

/-- `String.prototype.replace` with a `g`-flagged regex. -/
def replaceAll (toks : List RTok) (rep : List Char) (s : List Char) : List Char :=
  replaceAllGo toks rep (s.length + 1) s

/-- Fuelled worker for counting `String.prototype.match` results. -/
def countGo (toks : List RTok) : Nat → List Char → Nat
  | 0, _ => 0
  | fuel + 1, s =>
    match matchToks toks s with
    | some rest =>
      if rest.length < s.length then
        1 + countGo toks fuel rest
      else
        match s with
        | [] => 1
        | _ :: s' => 1 + countGo toks fuel s'
    | none =>
      match s with
      | [] => 0
      | _ :: s' => countGo toks fuel s'

/-- Number of matches returned by `String.prototype.match` with a
`g`-flagged regex (`0` encodes the `null` result). -/
def countMatches (toks : List RTok) (s : List Char) : Nat :=
  countGo toks (s.length + 1) s

/-- `String.prototype.includes` for a literal needle. -/
def containsSub (needle : String) (hay : List Char) : Bool :=
  (findFrom (strToks needle) hay 0).isSome

/-- Fuelled worker for `String.prototype.split` with a non-empty literal
separator `c0 :: ctail`. -/
def splitGo (c0 : Char) (ctail : List Char) : Nat → List Char → List (List Char)
  | 0, s => [s]
  | fuel + 1, s =>
    match s with
    | [] => [[]]
    | c :: rest =>
      if (c0 :: ctail).isPrefixOf (c :: rest) then
        [] :: splitGo c0 ctail fuel (List.drop ctail.length rest)
      else
        match splitGo c0 ctail fuel rest with
        | [] => [[c]]
        | h :: t => (c :: h) :: t

/-- `String.prototype.split` with a non-empty literal separator
`c0 :: ctail`. -/
def splitSub (c0 : Char) (ctail : List Char) (s : List Char) : List (List Char) :=
  splitGo c0 ctail (s.length + 1) s

/-- `Array.prototype.join` with `"\n"`. -/
def joinNl : List (List Char) → List Char
  | [] => []
  | [l] => l
  | l :: ls => l ++ '\n' :: joinNl ls

/-!
## ImportPathResolver

`src/web-companion/src/services/ImportPathResolver.js` (bundled in
`PackageManager.js`).  The constructor compiles two `g`-flagged rule
tables once; each relative rule therefore owns a persistent `lastIndex`,
which `transformCode` probes with `RegExp.test`.  The resolver state
threaded below is exactly the vector of those `lastIndex` values, in
table order (the five global rules are only used through `match` and
`replace`, both of which leave `lastIndex` at `0`, so they need no
state).
-/

/-- A global prefix rule: `pattern.toString()` (used in diagnostics),
the compiled pattern, and the replacement text. -/
structure GRule where
  display : String
  toks : List RTok
  rep : List Char

/-- A relative-import mapping rule: compiled pattern and replacement. -/
structure RRule where
  toks : List RTok
  rep : List Char

/-- `this.importTransformations` (PackageManager.js lines 189–195). -/
def importTransformations : List GRule :=
  [ ⟨"/from\\s+src\\./g", strToks "from" ++ [.wsPlus] ++ strToks "src.",
      ("from mastering_performant_code.").data⟩,
    ⟨"/import\\s+src\\./g", strToks "import" ++ [.wsPlus] ++ strToks "src.",
      ("import mastering_performant_code.").data⟩,
    ⟨"/__import__\\([\"\x27]src\\./g",
      strToks "__import__(" ++ [.cls ['"', Char.ofNat 39]] ++ strToks "src.",
      ("__import__(\"mastering_performant_code.").data⟩,
    ⟨"/\x27src\\./g", strToks "\x27src.",
      ("\x27mastering_performant_code.").data⟩,
    ⟨"/\"src\\./g", strToks "\"src.",
      ("\"mastering_performant_code.").data⟩ ]

/-- Build a `from\s+NAME\b` rule targeting `mastering_performant_code.T`. -/
def fromMod (m t : String) : RRule :=
  ⟨strToks "from" ++ [.wsPlus] ++ strToks m ++ [.wordB],
    ("from mastering_performant_code." ++ t).data⟩

/-- Build an `import\s+NAME\b` rule targeting `mastering_performant_code.T`. -/
def importMod (m t : String) : RRule :=
  ⟨strToks "import" ++ [.wsPlus] ++ strToks m ++ [.wordB],
    ("import mastering_performant_code." ++ t).data⟩

/-- Build a `from\s+\.NAME\b` rule targeting `mastering_performant_code.T`. -/
def fromRel (m t : String) : RRule :=
  ⟨strToks "from" ++ [.wsPlus] ++ strToks ("." ++ m) ++ [.wordB],
    ("from mastering_performant_code." ++ t).data⟩

/-- `this.relativeImportMappings` (PackageManager.js lines 198–312), in
source order. -/
def relativeImportMappings : List RRule :=
  [ fromMod "dynamic_array" "chapter_01.dynamic_array",
    importMod "dynamic_array" "chapter_01.dynamic_array",
    fromMod "hash_table" "chapter_01.hash_table",
    importMod "hash_table" "chapter_01.hash_table",
    fromMod "simple_set" "chapter_01.simple_set",
    importMod "simple_set" "chapter_01.simple_set",
    fromMod "analyzer" "chapter_01.analyzer",
    importMod "analyzer" "chapter_01.analyzer",
    fromMod "algorithms" "chapter_02.algorithms",
    importMod "algorithms" "chapter_02.algorithms",
    fromMod "benchmarks" "chapter_02.benchmarks",
    importMod "benchmarks" "chapter_02.benchmarks",
    fromMod "profiler" "chapter_02.profiler",
    importMod "profiler" "chapter_02.profiler",
    fromRel "algorithms" "chapter_02.algorithms",
    fromRel "benchmarks" "chapter_02.benchmarks",
    fromRel "profiler" "chapter_02.profiler",
    fromMod "applications" "chapter_03.applications",
    importMod "applications" "chapter_03.applications",
    fromRel "applications" "chapter_03.applications",
    fromMod "dynamic_array" "chapter_03.dynamic_array",
    importMod "dynamic_array" "chapter_03.dynamic_array",
    fromRel "dynamic_array" "chapter_03.dynamic_array",
    fromMod "singly_linked_list" "chapter_04.singly_linked_list",
    fromMod "doubly_linked_list" "chapter_04.doubly_linked_list",
    fromRel "singly_linked_list" "chapter_04.singly_linked_list",
    fromRel "doubly_linked_list" "chapter_04.doubly_linked_list",
    fromMod "priority_queue" "chapter_05.priority_queue",
    fromMod "skip_list" "chapter_05.skip_list",
    fromRel "priority_queue" "chapter_05.priority_queue",
    fromRel "skip_list" "chapter_05.skip_list",
    fromMod "bst_node" "chapter_06.bst_node",
    fromRel "bst_node" "chapter_06.bst_node",
    fromMod "avl_node" "chapter_07.avl_node",
    fromRel "avl_node" "chapter_07.avl_node",
    fromMod "red_black_tree" "chapter_08.red_black_tree",
    fromRel "red_black_tree" "chapter_08.red_black_tree",
    fromMod "btree_node" "chapter_09.btree_node",
    fromRel "btree_node" "chapter_09.btree_node",
    fromMod "autocomplete" "chapter_10.autocomplete",
    fromRel "autocomplete" "chapter_10.autocomplete",
    fromMod "binary_heap" "chapter_11.binary_heap",
    fromRel "binary_heap" "chapter_11.binary_heap",
    fromMod "heap_sort" "chapter_11.heap_sort",
    fromRel "heap_sort" "chapter_11.heap_sort",
    fromMod "task_scheduler" "chapter_11.task_scheduler",
    fromRel "task_scheduler" "chapter_11.task_scheduler",
    fromMod "disjoint_set" "chapter_12.disjoint_set",
    fromRel "disjoint_set" "chapter_12.disjoint_set",
    fromMod "hash_table" "chapter_13.hash_table",
    fromRel "hash_table" "chapter_13.hash_table",
    fromMod "bloom_filter" "chapter_14.bloom_filter",
    fromMod "counting_bloom_filter" "chapter_14.counting_bloom_filter",
    fromMod "scalable_bloom_filter" "chapter_14.scalable_bloom_filter",
    fromRel "bloom_filter" "chapter_14.bloom_filter",
    fromRel "counting_bloom_filter" "chapter_14.counting_bloom_filter",
    fromRel "scalable_bloom_filter" "chapter_14.scalable_bloom_filter",
    fromMod "lru_cache" "chapter_15.lru_cache",
    fromMod "lfu_cache" "chapter_15.lfu_cache",
    fromMod "real_world_applications" "chapter_15.real_world_applications",
    fromMod "performance_analyzer" "chapter_15.performance_analyzer",
    fromRel "lru_cache" "chapter_15.lru_cache",
    fromRel "lfu_cache" "chapter_15.lfu_cache",
    fromRel "real_world_applications" "chapter_15.real_world_applications",
    fromRel "performance_analyzer" "chapter_15.performance_analyzer",
    fromMod "memory_profiler" "chapter_16.memory_profiler",
    fromMod "object_pool" "chapter_16.object_pool",
    fromMod "integration_patterns" "chapter_16.integration_patterns",
    fromRel "memory_profiler" "chapter_16.memory_profiler",
    fromRel "object_pool" "chapter_16.object_pool",
    fromRel "integration_patterns" "chapter_16.integration_patterns",
    fromMod "btree" "chapter_09.btree",
    fromRel "btree" "chapter_09.btree",
    fromMod "database_index" "chapter_09.database_index",
    fromRel "database_index" "chapter_09.database_index",
    fromMod "recursive_bst" "chapter_06.recursive_bst",
    fromRel "recursive_bst" "chapter_06.recursive_bst" ]

/-- Fresh resolver state: every relative rule's `lastIndex` is `0`
(regexes as compiled by the constructor). -/
def resolverFresh : List Nat := relativeImportMappings.map fun _ => 0

/-- One entry of `diagnostics.transformations`. -/
structure TransEntry where
  pattern : String
  replacement : String
  count : Nat
  ttype : String
deriving DecidableEq, Repr

/-- The `diagnostics` record built by `transformCode`. -/
structure TDiagnostics where
  transformations : List TransEntry
  warnings : List String
  errors : List String
deriving DecidableEq, Repr

/-- Return value of `transformCode`. -/
structure TransformResult where
  transformedCode : String
  diagnostics : TDiagnostics
deriving DecidableEq, Repr

/-- The line guard `/from\s+mastering_performant_code\./` (a fresh,
non-global regex in the source, hence stateless). -/
def guardFrom (line : List Char) : Bool :=
  (findFrom (strToks "from" ++ [.wsPlus] ++ strToks "mastering_performant_code.") line 0).isSome

/-- The line guard `/import\s+mastering_performant_code\./`. -/
def guardImport (line : List Char) : Bool :=
  (findFrom (strToks "import" ++ [.wsPlus] ++ strToks "mastering_performant_code.") line 0).isSome

/-- The per-line rule loop of `transformCode` (lines 358–376): walk the
relative rules with their `lastIndex` values in lockstep, returning the
rewritten line, the updated `lastIndex` vector and the number of rule
applications that changed the line. -/
def applyRules : List RRule → List Nat → List Char → List Char × List Nat × Nat
  | [], _, line => (line, [], 0)
  | _ :: _, [], line => (line, [], 0)
  | r :: rs, li :: ls, line =>
    let t := jsTest r.toks line li
    if t.1 && !(guardFrom line) && !(guardImport line) then
      let newLine := replaceAll r.toks r.rep line
      if newLine ≠ line then
        let rec1 := applyRules rs ls newLine
        (rec1.1, 0 :: rec1.2.1, rec1.2.2 + 1)
      else
        let rec1 := applyRules rs ls line
        (rec1.1, 0 :: rec1.2.1, rec1.2.2)
    else
      let rec1 := applyRules rs ls line
      (rec1.1, t.2 :: rec1.2.1, rec1.2.2)

/-- The `lines.map(...)` pass of `transformCode`, threading the rule
states line by line. -/
def mapLines : List (List Char) → List Nat → List (List Char) × List Nat × Nat
  | [], sts => ([], sts, 0)
  | l :: ls, sts =>
    let r1 := applyRules relativeImportMappings sts l
    let r2 := mapLines ls r1.2.1
    (r1.1 :: r2.1, r2.2.1, r1.2.2 + r2.2.2)

/-- The global pass of `transformCode` (lines 336–353): for each global
rule, count matches and, if any, replace and record a diagnostics
entry. -/
def applyGlobalRules : List GRule → List Char → List Char × List TransEntry
  | [], text => (text, [])
  | g :: gs, text =>
    let n := countMatches g.toks text
    if n > 0 then
      let r := applyGlobalRules gs (replaceAll g.toks g.rep text)
      (r.1, ⟨g.display, String.mk g.rep, n, "src_transformation"⟩ :: r.2)
    else
      applyGlobalRules gs text

/-- `detectPotentialIssues` (lines 436–458): warnings and errors. -/
def detectPotentialIssues (code : List Char) : List String × List String :=
  let w1 := if containsSub "mastering_performant_code.mastering_performant_code" code then
      ["Potential double transformation detected"] else []
  let w2 := if containsSub "src." code && containsSub "mastering_performant_code." code then
      ["Mixed import patterns detected - some imports may not be transformed"] else []
  let e1 := if containsSub "from mastering_performant_code. import" code then
      ["Invalid import statement: missing module name after dot"] else []
  (w1 ++ w2, e1)

/-- `hasSyntaxErrors` (lines 463–472). -/
def hasSyntaxErrors (code : List Char) : Bool :=
  (findFrom (strToks "from" ++ [.wsPlus] ++ strToks "mastering_performant_code." ++
      [.wsStar] ++ strToks "import") code 0).isSome ||
  (findFrom (strToks "import" ++ [.wsPlus] ++ strToks "mastering_performant_code." ++
      [.wsStar, .endA]) code 0).isSome ||
  (findFrom (strToks "from" ++ [.wsPlus] ++ strToks "mastering_performant_code." ++
      [.wsStar, .endA]) code 0).isSome

/-- `validateTransformation` (lines 407–431), projected to the
`(warnings, errors)` pair that `transformCode` consumes. -/
def validateTransformation (originalCode transformedCode : List Char) :
    List String × List String :=
  let w0 := if originalCode = transformedCode then ["No transformations were applied"] else []
  let issues := detectPotentialIssues transformedCode
  let e2 := if hasSyntaxErrors transformedCode then
      ["Transformed code contains syntax errors"] else []
  (w0 ++ issues.1, issues.2 ++ e2)

/-- `ImportPathResolver.transformCode` (lines 326–402).  Takes the
resolver's current `lastIndex` vector and returns it updated alongside
the result — the only mutable state the method touches. -/
def transformCode (relStates : List Nat) (code : String) : TransformResult × List Nat :=
  let g := applyGlobalRules importTransformations code.data
  let lines := splitSub '\n' [] g.1
  let m := mapLines lines relStates
  let text2 := joinNl m.1
  let entries := g.2 ++
    (if m.2.2 > 0 then
      [⟨"relativeImportMappings", "chapter-specific", m.2.2, "relative_import_mapping"⟩]
    else [])
  let v := validateTransformation code.data text2
  (⟨String.mk text2, ⟨entries, v.1, v.2⟩⟩, m.2.1)

/-!
## PackageManager

`src/web-companion/src/services/PackageManager.js`.  The interpreter
collaborator is abstracted as the outcome of each awaited step:
`pyodide.loadPackage(['micropip'])`, `micropip.install(url)` and
`verifyInstallation` (the latter catches internally and returns a
boolean).  `installPackage` returns the JS result (`Except` models a
re-thrown error), the updated manager state and the ordered list of
progress snapshots delivered to the callback by `updateProgress`.
-/

/-- `this.installationProgress` snapshot `{ status, percentage, message }`. -/
structure Progress where
  status : String
  percentage : Nat
  message : String
deriving DecidableEq, Repr

/-- Mutable fields of `PackageManager` relevant to installation. -/
structure PMState where
  isInstalled : Bool
  isInstalling : Bool
  installationProgress : Progress
deriving DecidableEq, Repr

/-- Constructor state of `PackageManager`. -/
def pmFresh : PMState := ⟨false, false, ⟨"idle", 0, ""⟩⟩

/-- Outcomes of the awaited interpreter steps inside `installPackage`:
`.error` models the await throwing. -/
structure InstallEnv where
  loadMicropipRes : Except String Unit
  micropipInstallRes : Except String Unit
  verifyOk : Bool

/-- `PackageManager.installPackage` (lines 49–93).  The result is
`.ok b` for a normal return of `b`, `.error e` for a re-thrown error;
the third component lists every `updateProgress` snapshot in delivery
order.  `isInstalling` is raised on entry and cleared in the `finally`
block, so every returned state has it cleared. -/
def installPackage (st : PMState) (env : InstallEnv) :
    Except String Bool × PMState × List Progress :=
  if st.isInstalled then (.ok true, st, [])
  else if st.isInstalling then (.ok false, st, [])
  else
    let p0 : Progress := ⟨"starting", 0, "Starting package installation..."⟩
    let p1 : Progress := ⟨"loading_micropip", 10, "Loading micropip..."⟩
    match env.loadMicropipRes with
    | .error e =>
      let pe : Progress := ⟨"error", 0, "Installation failed: " ++ e⟩
      (.error e, { st with isInstalling := false, installationProgress := pe },
        [p0, p1, pe])
    | .ok _ =>
      let p2 : Progress := ⟨"downloading", 30, "Downloading package from GitHub..."⟩
      match env.micropipInstallRes with
      | .error e =>
        let pe : Progress := ⟨"error", 0, "Installation failed: " ++ e⟩
        (.error e, { st with isInstalling := false, installationProgress := pe },
          [p0, p1, p2, pe])
      | .ok _ =>
        let p3 : Progress := ⟨"verifying", 90, "Verifying package installation..."⟩
        if env.verifyOk then
          let p4 : Progress := ⟨"complete", 100, "Package installed successfully!"⟩
          (.ok true,
            { st with isInstalled := true, isInstalling := false,
                      installationProgress := p4 },
            [p0, p1, p2, p3, p4])
        else
          let pe : Progress := ⟨"error", 0, "Installation failed: Package verification failed"⟩
          (.error "Package verification failed",
            { st with isInstalling := false, installationProgress := pe },
            [p0, p1, p2, p3, pe])

/-!
## PyodideExecutor.execute

`src/web-companion/src/services/PyodideExecutor.js` lines 160–256.  The
interpreter collaborator is abstracted as: the interpreter-side stdout
and stderr channel bindings (`sys.stdout`/`sys.stderr`, which the
redirect snippet points at fresh `StringIO` buffers and the reset
snippet points back at `sys.__stdout__`/`sys.__stderr__`), the outcome
of running the patched user code, the captured buffer contents, the
memory sampling outcome, and the sequence of `performance.now()`
readings (call 0 = `startTime`, call 1 = `executionStartTime`, call 2 =
`executionEndTime` on success or the reading taken inside `catch`).
-/

/-- Where an interpreter output stream currently points. -/
inductive Chan where
  | original
  | redirected
deriving DecidableEq, Repr

/-- Interpreter-side stream bindings. -/
structure PyStreams where
  stdoutChan : Chan
  stderrChan : Chan
deriving DecidableEq, Repr

/-- Mutable fields of `PyodideExecutor` relevant to `execute`. -/
structure ExecutorState where
  isInitialized : Bool
  packageInstalled : Bool
  resolverState : List Nat
  streams : PyStreams
deriving Repr

/-- Environment: outcomes of the awaited/foreign calls inside `execute`. -/
structure ExecEnv where
  runResult : Except String Unit
  stdoutVal : String
  stderrVal : String
  memInfo : Except String (Nat × Nat × Nat)
  now : Nat → Int

/-- `options` after merging with the defaults of `execute`. -/
structure ExecOptions where
  timeout : Nat := 30000
  captureOutput : Bool := true
  measurePerformance : Bool := true

/-- `memoryUsage` record produced by `getMemoryUsage`. -/
structure MemoryUsage where
  heapSize : Nat
  totalObjects : Nat
  garbageCount : Nat
  available : Bool
  errMsg : Option String
deriving DecidableEq, Repr

/-- The `ExecutionResult` record assembled by `execute`. -/
structure ExecutionResult where
  success : Bool
  output : String
  error : Option String
  executionTime : Int
  memoryUsage : Option MemoryUsage
  warnings : List String
  transformationInfo : Option TransformResult
deriving Repr

/-- `PyodideExecutor.getMemoryUsage` (lines 359–402), abstracted over the
interpreter's memory sampling outcome. -/
def getMemoryUsage (st : ExecutorState) (env : ExecEnv) : MemoryUsage :=
  if st.isInitialized = false then ⟨0, 0, 0, false, none⟩
  else
    match env.memInfo with
    | .ok (h, t, g) => ⟨h, t, g, true, none⟩
    | .error e => ⟨0, 0, 0, false, some e⟩

/-- The `__file__` guard prepended to every snippet (line 182). -/
def filePatch : String :=
  "\ntry:\n    __file__\nexcept NameError:\n    __file__ = \x27<pyodide>\x27\n"

/-- Interpreter interactions performed by one `execute` call, in order. -/
inductive PyCall where
  | redirect
  | run (code : String)
  | getStdout
  | getStderr
  | restore
deriving DecidableEq, Repr

/-- `PyodideExecutor.execute` (lines 160–256).  Returns the JS outcome
(`.error` models a thrown exception reaching the caller), the updated
executor state, and the trace of interpreter interactions.  Mirrors the
source control flow: the initialization guard throws; the rewrite runs
only when the companion package is installed; stdout/stderr are
redirected inside the `try`, and the reset snippet runs only on the
success path — the `catch` block builds the failure result without
restoring the streams. -/
def execute (st : ExecutorState) (code : String) (opts : ExecOptions) (env : ExecEnv) :
    Except String ExecutionResult × ExecutorState × List PyCall :=
  if st.isInitialized = false then
    (.error "PyodideExecutor not initialized", st, [])
  else
    let tr :=
      if st.packageInstalled then
        let t := transformCode st.resolverState code
        (t.1.transformedCode, some t.1, t.2)
      else (code, none, st.resolverState)
    let patchedCode := filePatch ++ "\n" ++ tr.1
    let startTime := env.now 0
    let redirected : PyStreams := ⟨.redirected, .redirected⟩
    let executionStartTime := env.now 1
    match env.runResult with
    | .ok _ =>
      let executionEndTime := env.now 2
      let stdout := env.stdoutVal
      let stderr := env.stderrVal
      let restoredSt : ExecutorState :=
        { st with resolverState := tr.2.2, streams := ⟨.original, .original⟩ }
      let result : ExecutionResult :=
        { success := true
          output := stdout
          error := if stderr = "" then none else some stderr
          executionTime := executionEndTime - executionStartTime
          memoryUsage := if opts.measurePerformance then some (getMemoryUsage restoredSt env) else none
          warnings := []
          transformationInfo := tr.2.1 }
      (.ok result, restoredSt,
        [.redirect, .run patchedCode, .getStdout, .getStderr, .restore])
    | .error e =>
      let leakedSt : ExecutorState :=
        { st with resolverState := tr.2.2, streams := redirected }
      let result : ExecutionResult :=
        { success := false
          output := ""
          error := some e
          executionTime := env.now 2 - startTime
          memoryUsage := if opts.measurePerformance then some (getMemoryUsage leakedSt env) else none
          warnings := []
          transformationInfo := tr.2.1 }
      (.ok result, leakedSt, [.redirect, .run patchedCode])

/-!
## TestRunner result parsing

`src/web-companion/src/services/TestRunner.js` (bundled in
`PyodideExecutor.js`), lines 746–816.  `JSON.parse` is a host-runtime
capability, abstracted as a parameter; the claims below only exercise
paths on which it is never called.
-/

/-- One `TestOutcome` record. -/
structure TestOutcome where
  name : String
  status : String
  duration : Nat
  output : String
  error : Option String
  file : String
deriving DecidableEq, Repr

/-- The sentinel-framed collection loop of `parseTestResults` (lines
753–764): accumulate the lines strictly between `TEST_RESULTS_START`
and `TEST_RESULTS_END` (the latter breaks the loop). -/
def collectJson : List (List Char) → Bool → List Char → List Char
  | [], _, acc => acc
  | l :: ls, inResults, acc =>
    if l = "TEST_RESULTS_START".data then collectJson ls true acc
    else if l = "TEST_RESULTS_END".data then acc
    else if inResults then collectJson ls inResults (acc ++ l)
    else collectJson ls inResults acc

/-- `TestRunner.parseFallbackResults` (lines 793–816): scan for lines
containing `::` together with `PASSED`, `FAILED` or `ERROR`. -/
def parseFallbackResults (output fileName : String) : List TestOutcome :=
  (splitSub '\n' [] output.data).filterMap fun line =>
    if containsSub "::" line &&
        (containsSub "PASSED" line || containsSub "FAILED" line || containsSub "ERROR" line) then
      let parts := splitSub ':' [':'] line
      let testName := String.mk (((splitSub ' ' [] (parts.getLastD [])).headD []))
      let status := if containsSub "PASSED" line then "passed"
        else if containsSub "FAILED" line then "failed" else "error"
      some ⟨testName, status, 0, String.mk line,
        if status ≠ "passed" then some (String.mk line) else none, fileName⟩
    else none

/-- `TestRunner.parseTestResults` (lines 746–788), abstracted over the
host's `JSON.parse` (whose failure is caught and reported as a
`parse_error` outcome). -/
def parseTestResults (jsonParse : String → Except String (List TestOutcome))
    (output fileName : String) : List TestOutcome :=
  let jsonData := collectJson (splitSub '\n' [] output.data) false []
  if jsonData ≠ [] then
    match jsonParse (String.mk jsonData) with
    | .ok parsed => parsed.map fun r => { r with file := fileName }
    | .error _ =>
      [⟨"parse_error", "error", 0, output, some "Failed to parse test results", fileName⟩]
  else
    parseFallbackResults output fileName

/-!
## Concrete fixtures used by the claim theorems
-/

/-- An initialized executor with the companion package not installed and
the interpreter streams on their original channels. -/
def stReady : ExecutorState := ⟨true, false, resolverFresh, ⟨.original, .original⟩⟩

/-- An environment in which the user code raises; `performance.now()`
reads 0 (before stream setup), 10 (just before the run) and 25 (inside
the `catch` block). -/
def envRaise : ExecEnv :=
  ⟨.error "Exception: boom", "", "", .error "sampling unavailable",
    fun k => if k = 0 then 0 else if k = 1 then 10 else 25⟩

/-- An environment in which the user code completes normally. -/
def envRunOk : ExecEnv :=
  ⟨.ok (), "hello\n", "", .ok (56, 1000, 0),
    fun k => if k = 0 then 0 else if k = 1 then 10 else 25⟩

/-- A manager that has already installed the package successfully. -/
def pmInstalled : PMState :=
  ⟨true, false, ⟨"complete", 100, "Package installed successfully!"⟩⟩

/-- A manager observed while another `installPackage` call is in flight
(between its entry and its `finally`). -/
def pmInFlight : PMState :=
  ⟨false, true, ⟨"downloading", 30, "Downloading package from GitHub..."⟩⟩

/-- Interpreter steps succeed but smoke verification fails. -/
def envVerifyFail : InstallEnv := ⟨.ok (), .ok (), false⟩

/-- All installation steps succeed. -/
def envInstallOk : InstallEnv := ⟨.ok (), .ok (), true⟩

/-- A snippet that rewriting should leave unchanged and that leaves one
rule's `lastIndex` dirty: two guard-blocked lines around a line whose
only match lies below the dirty `lastIndex`. -/
def staleInput : String :=
  "from mastering_performant_code.x; from dynamic_array\n" ++
  "from dynamic_array import Y\n" ++
  "from mastering_performant_code.y; from dynamic_array"

/-- Captured output of a test harness that crashed before printing the
sentinel markers, with one recoverable per-test line. -/
def crashedHarnessOutput : String :=
  "tests/test_dynamic_array.py::test_append PASSED\ncollected 1 item"

end WebCompanion

namespace WebCompanion

/-!
## Claim theorems
-/

/-- C10: if `execute` is invoked before initialization has completed, it
throws `PyodideExecutor not initialized` instead of returning an
`ExecutionResult`, with no rewriting, no interpreter interaction and no
state change. -/
theorem execute_throws_when_uninitialized (st : ExecutorState) (code : String)
    (opts : ExecOptions) (env : ExecEnv) (h : st.isInitialized = false) :
    execute st code opts env = (.error "PyodideExecutor not initialized", st, []) := by
  unfold execute
  rw [h]
  simp

/-- Witness for `execute_throws_when_uninitialized` at a concrete
uninitialized state. -/
theorem execute_throws_when_uninitialized_witness :
    execute ⟨false, false, resolverFresh, ⟨.original, .original⟩⟩ "print(1)" {} envRunOk =
      (.error "PyodideExecutor not initialized",
        ⟨false, false, resolverFresh, ⟨.original, .original⟩⟩, []) :=
  execute_throws_when_uninitialized _ _ _ _ rfl

/-- C7: for an initialized executor, `execute` always returns a
structured `ExecutionResult` — it never re-throws; a failure of the
interpreter run is captured in the result's `error` field with
`success = false`, and a normal run yields `success = true`. -/
theorem execute_always_returns_result (st : ExecutorState) (code : String)
    (opts : ExecOptions) (env : ExecEnv) (h : st.isInitialized = true) :
    (∃ r, (execute st code opts env).1 = Except.ok r) ∧
    (∀ e, env.runResult = .error e →
      ∃ r, (execute st code opts env).1 = Except.ok r ∧ r.success = false ∧ r.error = some e) ∧
    (∀ u, env.runResult = .ok u →
      ∃ r, (execute st code opts env).1 = Except.ok r ∧ r.success = true) := by
  unfold execute
  rw [h]
  simp only [Bool.true_eq_false, if_false]
  cases henv : env.runResult <;> simp [henv]

/-- Witness for `execute_always_returns_result` at a concrete raising
run. -/
theorem execute_always_returns_result_witness :
    (∃ r, (execute stReady "1/0" {} envRaise).1 = Except.ok r) ∧
    (∀ e, envRaise.runResult = .error e →
      ∃ r, (execute stReady "1/0" {} envRaise).1 = Except.ok r ∧
        r.success = false ∧ r.error = some e) ∧
    (∀ u, envRaise.runResult = .ok u →
      ∃ r, (execute stReady "1/0" {} envRaise).1 = Except.ok r ∧ r.success = true) :=
  execute_always_returns_result stReady "1/0" {} envRaise rfl

/-- C1: evaluation at the failing input.  When the interpreter run
raises, the `catch` block of `execute` builds the failure result without
running the stream-reset snippet, so the interpreter's stdout/stderr are
left pointing at the redirection buffers; the success path does restore
them.  This contradicts the specified restoration on every exit path. -/
theorem execute_leaks_redirection_on_exception :
    (execute stReady "raise Exception(\"boom\")" {} envRaise).2.1.streams =
      ⟨.redirected, .redirected⟩ ∧
    (execute stReady "print(1)" {} envRunOk).2.1.streams = ⟨.original, .original⟩ := by
  constructor <;> rfl

/-- C6 counterexample: on the exception path `executionTime` is measured
from `startTime`, taken before the stdout/stderr redirection snippet,
not around the interpreter run call only: with `performance.now()`
readings 0 (before setup), 10 (just before the run) and 25 (in `catch`),
the reported time is 25, whereas the duration around the run call alone
is 15. -/
theorem executionTime_includes_setup_on_exception :
    ((execute stReady "1/0" {} envRaise).1.toOption.map ExecutionResult.executionTime) =
      some 25 ∧
    envRaise.now 2 - envRaise.now 1 = 15 ∧ (25 : Int) ≠ 15 := by
  refine ⟨rfl, rfl, by decide⟩

/-- C6 amended: on the success path `executionTime` is the wall-clock
duration around the interpreter run call only (excluding stream setup
and teardown); on the exception path the elapsed time up to the failure
is still reported, but it is measured from before the stream redirection
setup, so it includes the setup. -/
theorem executionTime_measurement_paths (st : ExecutorState) (code : String)
    (opts : ExecOptions) (env : ExecEnv) (h : st.isInitialized = true) :
    (∀ u, env.runResult = .ok u →
      ∃ r, (execute st code opts env).1 = Except.ok r ∧
        r.executionTime = env.now 2 - env.now 1) ∧
    (∀ e, env.runResult = .error e →
      ∃ r, (execute st code opts env).1 = Except.ok r ∧
        r.executionTime = env.now 2 - env.now 0) := by
  unfold execute
  rw [h]
  simp only [Bool.true_eq_false, if_false]
  cases henv : env.runResult <;> simp [henv]

/-- Witness for `executionTime_measurement_paths`. -/
theorem executionTime_measurement_paths_witness :
    (∀ u, envRunOk.runResult = .ok u →
      ∃ r, (execute stReady "print(1)" {} envRunOk).1 = Except.ok r ∧
        r.executionTime = envRunOk.now 2 - envRunOk.now 1) ∧
    (∀ e, envRunOk.runResult = .error e →
      ∃ r, (execute stReady "print(1)" {} envRunOk).1 = Except.ok r ∧
        r.executionTime = envRunOk.now 2 - envRunOk.now 0) :=
  executionTime_measurement_paths stReady "print(1)" {} envRunOk rfl

/-- C4: `installPackage` returns `true` immediately — with no interpreter
steps, no progress events and no state change — once installed; returns
`false` without side effects while another install is in flight; and any
call that returns `true` leaves the state installed (so all subsequent
calls return `true` immediately). -/
theorem installPackage_idempotent_and_guarded (st : PMState) (env : InstallEnv) :
    (st.isInstalled = true → installPackage st env = (.ok true, st, [])) ∧
    (st.isInstalled = false → st.isInstalling = true →
      installPackage st env = (.ok false, st, [])) ∧
    ((installPackage st env).1 = .ok true → (installPackage st env).2.1.isInstalled = true) := by
  obtain ⟨l, i, v⟩ := env
  refine ⟨fun h1 => by simp [installPackage, h1],
    fun h1 h2 => by simp [installPackage, h1, h2], ?_⟩
  by_cases h1 : st.isInstalled
  · simp [installPackage, h1]
  · by_cases h2 : st.isInstalling
    · simp [installPackage, h1, h2]
    · cases l <;> cases i <;> cases v <;> simp [installPackage, h1, h2]

/-- Witness for `installPackage_idempotent_and_guarded`: a second call
after success returns `true` with no work; a call while one is in flight
returns `false` with no work. -/
theorem installPackage_idempotent_and_guarded_witness :
    installPackage pmInstalled envInstallOk = (.ok true, pmInstalled, []) ∧
    installPackage pmInFlight envInstallOk = (.ok false, pmInFlight, []) :=
  ⟨(installPackage_idempotent_and_guarded pmInstalled envInstallOk).1 rfl,
    (installPackage_idempotent_and_guarded pmInFlight envInstallOk).2.1 rfl rfl⟩

/-- C2 counterexample: when verification fails, the transition to the
error state itself resets the reported percentage to 0 — the `error`
progress event carries percentage 0 (down from 90), and the stored
snapshot after the call is 0, not the pre-error value.  The claim
asserts the reset happens only on the next retry's `Installing` state. -/
theorem installPackage_error_resets_percentage_immediately :
    ((installPackage pmFresh envVerifyFail).2.2.map fun p => (p.status, p.percentage)) =
      [("starting", 0), ("loading_micropip", 10), ("downloading", 30),
        ("verifying", 90), ("error", 0)] ∧
    (installPackage pmFresh envVerifyFail).2.1.installationProgress.percentage = 0 := by
  constructor <;> rfl

/-- C2 amended: within a single `Installing` run, the reported percentage
is monotonically non-decreasing across all non-error updates, and a
transition to `Error` resets the percentage to 0 at the moment of the
transition itself (the next retry's `Installing` run then starts again
from 0). -/
theorem installPackage_progress_monotone_until_error (st : PMState) (env : InstallEnv)
    (h1 : st.isInstalled = false) (h2 : st.isInstalling = false) :
    List.Chain' (· ≤ ·)
      ((((installPackage st env).2.2).filter fun p => p.status ≠ "error").map
        Progress.percentage) ∧
    ∀ p ∈ (installPackage st env).2.2, p.status = "error" → p.percentage = 0 := by
  obtain ⟨l, i, v⟩ := env
  cases l <;> cases i <;> cases v <;>
    simp [installPackage, h1, h2]

/-- Witness for `installPackage_progress_monotone_until_error` on the
verification-failure run from the fresh state. -/
theorem installPackage_progress_monotone_until_error_witness :
    List.Chain' (· ≤ ·)
      ((((installPackage pmFresh envVerifyFail).2.2).filter fun p => p.status ≠ "error").map
        Progress.percentage) ∧
    ∀ p ∈ (installPackage pmFresh envVerifyFail).2.2, p.status = "error" → p.percentage = 0 :=
  installPackage_progress_monotone_until_error pmFresh envVerifyFail rfl rfl

set_option maxRecDepth 100000 in
/-- C8: transforming `from src.chapter_01.dynamic_array import
DynamicArray` from the fresh resolver yields the fully-qualified import,
and the diagnostics carry exactly one transformation entry with
occurrence count 1. -/
theorem transformCode_example_line :
    ((transformCode resolverFresh
        "from src.chapter_01.dynamic_array import DynamicArray").1.transformedCode =
      "from mastering_performant_code.chapter_01.dynamic_array import DynamicArray") ∧
    ((transformCode resolverFresh
        "from src.chapter_01.dynamic_array import DynamicArray").1.diagnostics.transformations.map
        TransEntry.count = [1]) := by
  constructor <;> rfl

set_option maxRecDepth 100000 in
/-- C3: evaluation at the failing input.  The rule table's `g`-flagged
regexes are probed with `RegExp.test`, whose `lastIndex` survives between
calls whenever the line guard blocks the replacement; after an
interleaved call on a guard-blocked line, a repeat call on the very same
source text returns it untransformed, while the first call had rewritten
it — contradicting determinism of `transformCode` on a shared resolver. -/
theorem transformCode_repeat_call_differs :
    ((transformCode resolverFresh "from dynamic_array import Y").1.transformedCode =
      "from mastering_performant_code.chapter_01.dynamic_array import Y") ∧
    ((transformCode
        (transformCode
          (transformCode resolverFresh "from dynamic_array import Y").2
          "from mastering_performant_code.x; from dynamic_array").2
        "from dynamic_array import Y").1.transformedCode =
      "from dynamic_array import Y") := by
  constructor <;> rfl

set_option maxRecDepth 100000 in
/-- C5: evaluation at the failing input.  On `staleInput` the first
`transform` returns its input unchanged (one line's match is missed
because a guard-blocked earlier line left the rule's `lastIndex` beyond
it), but re-applying `transform` to that result rewrites the middle
line: `transform(transform(x).text).text ≠ transform(x).text`. -/
theorem transformCode_not_idempotent :
    ((transformCode resolverFresh staleInput).1.transformedCode = staleInput) ∧
    ((transformCode (transformCode resolverFresh staleInput).2
        (transformCode resolverFresh staleInput).1.transformedCode).1.transformedCode ≠
      (transformCode resolverFresh staleInput).1.transformedCode) := by
  refine ⟨rfl, ?_⟩
  decide

/-- The sentinel-collection loop yields nothing when no line equals
`TEST_RESULTS_START`. -/
theorem collectJson_of_no_start (ls : List (List Char)) (acc : List Char)
    (h : ∀ l ∈ ls, l ≠ "TEST_RESULTS_START".data) :
    collectJson ls false acc = acc := by
  induction ls with
  | nil => rfl
  | cons l ls ih =>
    have hl : l ≠ "TEST_RESULTS_START".data := h l (List.mem_cons_self _ _)
    have hrest : ∀ x ∈ ls, x ≠ "TEST_RESULTS_START".data :=
      fun x hx => h x (List.mem_cons_of_mem _ hx)
    rw [collectJson, if_neg hl]
    split
    · rfl
    · simpa using ih hrest

/-- C9: when the sentinel markers are absent from the captured output,
`parseTestResults` does not fail outright: it returns exactly the
fallback heuristic's outcomes, and every recovered outcome stems from an
output line containing `::` together with `PASSED`, `FAILED` or `ERROR`,
with a status drawn from that line. -/
theorem parseTestResults_falls_back_without_sentinels
    (jsonParse : String → Except String (List TestOutcome)) (output fileName : String)
    (h : ∀ l ∈ splitSub '\n' [] output.data, l ≠ "TEST_RESULTS_START".data) :
    parseTestResults jsonParse output fileName = parseFallbackResults output fileName ∧
    ∀ r ∈ parseFallbackResults output fileName,
      ∃ line ∈ splitSub '\n' [] output.data,
        containsSub "::" line = true ∧
        (containsSub "PASSED" line = true ∨ containsSub "FAILED" line = true ∨
          containsSub "ERROR" line = true) ∧
        r.output = String.mk line ∧
        (r.status = "passed" ∨ r.status = "failed" ∨ r.status = "error") := by
  constructor
  · unfold parseTestResults
    rw [collectJson_of_no_start _ _ h]
    simp
  · intro r hr
    rw [parseFallbackResults, List.mem_filterMap] at hr
    obtain ⟨line, hline, hf⟩ := hr
    refine ⟨line, hline, ?_⟩
    split at hf
    case isTrue hcond =>
      have hcond' := hcond
      simp only [Bool.and_eq_true, Bool.or_eq_true] at hcond'
      obtain ⟨h1, h2⟩ := hcond'
      obtain rfl : _ = r := Option.some.inj hf
      refine ⟨h1, by tauto, rfl, ?_⟩
      by_cases hp : containsSub "PASSED" line = true
      · simp [hp]
      · by_cases hq : containsSub "FAILED" line = true
        · simp [hp, hq]
        · simp [hp, hq]
    case isFalse hcond =>
      exact absurd hf (by simp)

/-- Witness for `parseTestResults_falls_back_without_sentinels` on a
harness crash output with one recoverable test line. -/
theorem parseTestResults_falls_back_without_sentinels_witness :
    parseTestResults (fun _ => .error "not json") crashedHarnessOutput
        "test_dynamic_array.py" =
      parseFallbackResults crashedHarnessOutput "test_dynamic_array.py" ∧
    ∀ r ∈ parseFallbackResults crashedHarnessOutput "test_dynamic_array.py",
      ∃ line ∈ splitSub '\n' [] crashedHarnessOutput.data,
        containsSub "::" line = true ∧
        (containsSub "PASSED" line = true ∨ containsSub "FAILED" line = true ∨
          containsSub "ERROR" line = true) ∧
        r.output = String.mk line ∧
        (r.status = "passed" ∨ r.status = "failed" ∨ r.status = "error") :=
  parseTestResults_falls_back_without_sentinels (fun _ => .error "not json")
    crashedHarnessOutput "test_dynamic_array.py" (by decide)

end WebCompanion
